import Mathlib

/-!
# Verification of `SocketStream` (`packages/polling/src/socketstream.ts`)

A shallow embedding of the `SocketStream` class.  A `SocketStream` owns a
`Poll` (field `connection`) whose factory is the stream's `reconnect`
method, a nullable current web socket (field `socket`), a stored message
forwarder (field `onmessage`), and — through its `Stream`/`Signal`
superclass — listener state and an async-iterable view.

The `Poll`, `Signal` and `Stream` collaborators live in other packages of
this repository and are not part of the given sources; the thin slices of
their behaviour that `SocketStream` relies on are modelled from the spec
and marked as such in their doc comments.  Everything else is translated
directly from `socketstream.ts`.

JavaScript promise semantics used by the embedding: an `async` function
never throws synchronously; if the executor passed to `new Promise`
throws, the promise rejects with the thrown value; rejecting an
already-settled promise is a no-op.
-/

/-- Payload type for `send` (`string | ArrayBufferLike | Blob |
ArrayBufferView` in the source; opaque here). -/
abbrev Payload := String

/-- A value that can sit in one of a web socket's callback slots.
`external n` is an opaque handler installed by code outside
`SocketStream` (the connector factory, or the hook produced by the
`onmessage` option — such code cannot hold the `reject` closure of a
promise that `reconnect` has not yet created).  `rejectClose fid` is the
closure that `reconnect` installs on `onclose`, which rejects the pending
future `fid`. -/
inductive Handler where
  | external (n : Nat)
  | rejectClose (fid : Nat)
deriving DecidableEq, Repr

/-- The four callback slots of a web socket. -/
inductive SlotKind where
  | onopen
  | onclose
  | onerror
  | onmessage
deriving DecidableEq, Repr

/-- One web socket object: four nullable callback slots plus whether
`close()` has been called on it. -/
structure Socket where
  onopen : Option Handler
  onclose : Option Handler
  onerror : Option Handler
  onmessage : Option Handler
  closed : Bool
deriving DecidableEq, Repr

/-- The slots a connector-produced socket arrives with: each is either
empty or an opaque external handler. -/
structure FactorySocket where
  onopen : Option Nat
  onclose : Option Nat
  onerror : Option Nat
  onmessage : Option Nat
deriving DecidableEq, Repr

/-- Convert a factory-produced socket into a live `Socket`. -/
def FactorySocket.toSocket (f : FactorySocket) : Socket :=
  { onopen := f.onopen.map Handler.external
    onclose := f.onclose.map Handler.external
    onerror := f.onerror.map Handler.external
    onmessage := f.onmessage.map Handler.external
    closed := false }

/-- The settlement state of one promise returned by `reconnect`. -/
inductive FutureState where
  | pending
  | resolvedOk
  | rejected (msg : String)
deriving DecidableEq, Repr

/-- The full state of a `SocketStream` together with the sockets it has
ever touched and the futures its `reconnect` calls have produced.

* `pollDisposed` — `connection.isDisposed`: whether the internal `Poll`
  has been disposed (and hence stopped permanently).
* `connector` — the stored transport factory (`protected readonly
  connector`), as an opaque id; what a call of it yields is supplied by
  the environment at each `reconnect`.
* `onmessage` — the stored per-message forwarder
  (`protected onmessage`), assigned only in the constructor.
* `socket` — the current socket (`protected socket`), an index into
  `sockets`, or `none`.
* `sockets` — every socket object created so far (socket `i` is
  `sockets[i]`); objects outlive being replaced as the current socket.
* `listeners` — the `Signal` listener/subscriber state of the stream
  (opaque listener ids).
* `streamStopped` — whether `Stream.stop` has ended the async-iterable
  view.
* `futures` — the promise returned by each `reconnect` call that reached
  the `new Promise` executor, in creation order. -/
structure StreamState where
  pollDisposed : Bool
  connector : Nat
  onmessage : Option Handler
  socket : Option Nat
  sockets : List Socket
  listeners : List Nat
  streamStopped : Bool
  futures : List FutureState
deriving DecidableEq, Repr

/-- Write one callback slot of a socket object. -/
def Socket.setSlot (sk : Socket) : SlotKind → Option Handler → Socket
  | SlotKind.onopen, h => { sk with onopen := h }
  | SlotKind.onclose, h => { sk with onclose := h }
  | SlotKind.onerror, h => { sk with onerror := h }
  | SlotKind.onmessage, h => { sk with onmessage := h }

/-- Read one callback slot of a socket object. -/
def Socket.getSlot (sk : Socket) : SlotKind → Option Handler
  | SlotKind.onopen => sk.onopen
  | SlotKind.onclose => sk.onclose
  | SlotKind.onerror => sk.onerror
  | SlotKind.onmessage => sk.onmessage

/-- Write one callback slot of socket `i` in the heap. -/
def setSlot (socks : List Socket) (i : Nat) (k : SlotKind)
    (h : Option Handler) : List Socket :=
  match socks[i]? with
  | none => socks
  | some sk => socks.set i (sk.setSlot k h)

/-- Call `close()` on socket `i` in the heap. -/
def closeSock (socks : List Socket) (i : Nat) : List Socket :=
  match socks[i]? with
  | none => socks
  | some sk => socks.set i { sk with closed := true }

/-- Externally observable effects of the stream's operations: calls it
makes on its collaborators (the `Poll`, the socket objects, the connector
factory, the `onmessage` option, `Signal.clearData`, `Stream.stop`). -/
inductive Effect where
  | pollDisposeOp
  | slotWrite (sid : Nat) (slot : SlotKind) (h : Option Handler)
  | socketCloseOp (sid : Nat)
  | socketSendOp (sid : Nat) (data : Payload)
  | clearDataOp
  | streamStopOp
  | connectorCall
  | onMessageFactoryCall (self : Nat)
deriving DecidableEq, Repr

/-- Getter `isDisposed`: `return this.connection.isDisposed;`. -/
def isDisposed (s : StreamState) : Bool :=
  s.pollDisposed

/-- Modelled from the spec: `Poll.dispose` (package `polling`, not in the
given sources) stops the poller permanently and marks it disposed;
disposing an already-disposed poll is a no-op with no observable
effect. -/
def pollDispose (s : StreamState) : StreamState × List Effect :=
  if s.pollDisposed then (s, [])
  else ({ s with pollDisposed := true }, [Effect.pollDisposeOp])

/-- Modelled from the spec: `Signal.clearData` (package `signaling`, not
in the given sources) clears all listener/subscriber state of the
object; when there are no listeners nothing observable happens. -/
def clearData (s : StreamState) : StreamState × List Effect :=
  if s.listeners = [] then (s, [])
  else ({ s with listeners := [] }, [Effect.clearDataOp])

/-- Modelled from the spec: `Stream.stop` (package `signaling`, not in
the given sources) stops the async-iterable view, so a consumer awaiting
the next value receives end-of-sequence rather than an error; stopping an
already-stopped stream is a no-op. -/
def streamStop (s : StreamState) : StreamState × List Effect :=
  if s.streamStopped then (s, [])
  else ({ s with streamStopped := true }, [Effect.streamStopOp])

/-- Method `dispose()`:
```
const { connection, socket } = this;
connection.dispose();
if (socket) {
  socket.onclose = null;
  socket.onerror = null;
  socket.onmessage = null;
  socket.onopen = null;
  socket.close();
}
this.socket = null;
Signal.clearData(this);
super.stop();
``` -/
def dispose (s : StreamState) : StreamState × List Effect :=
  let p1 := pollDispose s
  let p2 :=
    match p1.1.socket with
    | none => (p1.1, ([] : List Effect))
    | some i =>
      let socks :=
        closeSock
          (setSlot (setSlot (setSlot (setSlot p1.1.sockets
            i SlotKind.onclose none)
            i SlotKind.onerror none)
            i SlotKind.onmessage none)
            i SlotKind.onopen none) i
      ({ p1.1 with sockets := socks },
       [Effect.slotWrite i SlotKind.onclose none,
        Effect.slotWrite i SlotKind.onerror none,
        Effect.slotWrite i SlotKind.onmessage none,
        Effect.slotWrite i SlotKind.onopen none,
        Effect.socketCloseOp i])
  let s3 := { p2.1 with socket := none }
  let p4 := clearData s3
  let p5 := streamStop p4.1
  (p5.1, p1.2 ++ p2.2 ++ p4.2 ++ p5.2)

/-- The error raised by `this.socket!.send(data)` when `socket` is
`null` (the non-null assertion dereferences `null` at runtime). -/
inductive SendErr where
  | nullSocket
deriving DecidableEq, Repr

/-- Method `send(data)`:
```
if (this.isDisposed) {
  return;
}
this.socket!.send(data);
``` -/
def send (s : StreamState) (data : Payload) :
    StreamState × List Effect × Except SendErr Unit :=
  if isDisposed s then (s, [], Except.ok ())
  else
    match s.socket with
    | none => (s, [], Except.error SendErr.nullSocket)
    | some i => (s, [Effect.socketSendOp i data], Except.ok ())

/-- What one call of the connector factory does: return a fresh socket,
or throw synchronously (`err` is an opaque error id). -/
inductive ConnectorOutcome where
  | ok (f : FactorySocket)
  | throw (err : Nat)
deriving DecidableEq, Repr

/-- How a call of `reconnect` comes back to the `Poll`:
an immediately successfully-resolved promise (`resolvedNoop`, the
disposed case's `return;`), a pending promise recorded at index `fid` of
`futures` (`pending fid`), or a promise already rejected with the
connector's synchronously thrown error (`rejectedSync err` — the
`new Promise` executor threw, so `new Promise` returns a rejected
promise, which the `async` function adopts). -/
inductive ReconnectResult where
  | resolvedNoop
  | pending (fid : Nat)
  | rejectedSync (err : Nat)
deriving DecidableEq, Repr

/-- Method `reconnect()`:
```
if (this.isDisposed) {
  return;
}
return new Promise((_, reject) => {
  this.socket = this.connector();
  this.socket.onclose = () => reject(new Error('socket stream has closed'));
  this.socket.onmessage = this.onmessage;
});
```
The outcome of the `this.connector()` call is supplied by the
environment as `conn`.  The executor's `resolve` parameter is the unused
`_`: no code path resolves the pending promise. -/
def reconnect (s : StreamState) (conn : ConnectorOutcome) :
    StreamState × List Effect × ReconnectResult :=
  if isDisposed s then (s, [], ReconnectResult.resolvedNoop)
  else
    match conn with
    | ConnectorOutcome.throw e =>
      (s, [Effect.connectorCall], ReconnectResult.rejectedSync e)
    | ConnectorOutcome.ok f =>
      let sid := s.sockets.length
      let fid := s.futures.length
      let s1 := { s with
        sockets := s.sockets ++ [f.toSocket]
        socket := some sid
        futures := s.futures ++ [FutureState.pending] }
      let s2 := { s1 with
        sockets := setSlot s1.sockets sid SlotKind.onclose
          (some (Handler.rejectClose fid)) }
      let s3 := { s2 with
        sockets := setSlot s2.sockets sid SlotKind.onmessage s.onmessage }
      (s3,
       [Effect.connectorCall,
        Effect.slotWrite sid SlotKind.onclose
          (some (Handler.rejectClose fid)),
        Effect.slotWrite sid SlotKind.onmessage s.onmessage],
       ReconnectResult.pending fid)

/-- Constructor of `SocketStream`:
```
super(sender);
this.connector = options.connector;
this.onmessage = options.onmessage?.(this) || null;
```
`self` stands for `this`; `conn` is `options.connector`; the
`onmessage` option, when present, is a function from the stream to a
nullable external handler.  The `Poll` created for `connection` starts
not disposed with no socket and no futures. -/
def construct (self : Nat) (conn : Nat)
    (onmessageOpt : Option (Nat → Option Nat)) :
    StreamState × List Effect :=
  let hook : Option Handler :=
    match onmessageOpt with
    | some f => (f self).map Handler.external
    | none => none
  ({ pollDisposed := false
     connector := conn
     onmessage := hook
     socket := none
     sockets := []
     listeners := []
     streamStopped := false
     futures := [] },
   match onmessageOpt with
   | some _ => [Effect.onMessageFactoryCall self]
   | none => [])

/-- Web socket events that the environment can deliver to a socket
object. -/
inductive EventKind where
  | openEv
  | closeEv
  | errorEv
  | messageEv (data : Payload)
deriving DecidableEq, Repr

/-- The slot an event is dispatched to. -/
def eventSlot : EventKind → SlotKind
  | EventKind.openEv => SlotKind.onopen
  | EventKind.closeEv => SlotKind.onclose
  | EventKind.errorEv => SlotKind.onerror
  | EventKind.messageEv _ => SlotKind.onmessage

/-- Reject future `fid` with `msg`; rejecting a promise that is no
longer pending is a no-op (JavaScript promise semantics). -/
def settleReject (futures : List FutureState) (fid : Nat) (msg : String) :
    List FutureState :=
  match futures[fid]? with
  | some FutureState.pending => futures.set fid (FutureState.rejected msg)
  | _ => futures

/-- Run the handler in a fired slot.  The `rejectClose` closure rejects
its future with `new Error('socket stream has closed')`; an external
handler and an empty slot change nothing in the modelled state. -/
def runHandler (s : StreamState) : Option Handler → StreamState
  | some (Handler.rejectClose fid) =>
    { s with futures := settleReject s.futures fid "socket stream has closed" }
  | _ => s

/-- The environment fires event `ev` on socket `sid`. -/
def fireEvent (s : StreamState) (sid : Nat) (ev : EventKind) : StreamState :=
  match s.sockets[sid]? with
  | none => s
  | some sk => runHandler s (sk.getSlot (eventSlot ev))

/-- Everything that can happen to a stream after construction: its three
methods being called, a socket event firing, or a listener connecting to
the underlying signal. -/
inductive SAction where
  | doSend (data : Payload)
  | doDispose
  | doReconnect (conn : ConnectorOutcome)
  | doFire (sid : Nat) (ev : EventKind)
  | doConnect (l : Nat)
deriving DecidableEq, Repr

/-- One step of the stream's world. -/
def step (s : StreamState) : SAction → StreamState
  | SAction.doSend d => (send s d).1
  | SAction.doDispose => (dispose s).1
  | SAction.doReconnect conn => (reconnect s conn).1
  | SAction.doFire sid ev => fireEvent s sid ev
  | SAction.doConnect l => { s with listeners := s.listeners ++ [l] }

/-- Run a list of actions. -/
def run (s : StreamState) (as : List SAction) : StreamState :=
  as.foldl step s

/-- Handlers referring only to futures that already exist: any
`rejectClose g` present satisfies `g < bound`. -/
def handlerOK (bound : Nat) : Option Handler → Bool
  | some (Handler.rejectClose g) => decide (g < bound)
  | _ => true

/-- Well-formed states: every reject-closure anywhere in the state
refers to an already-created future.  Holds for every reachable state
(`construct` makes no closures; `reconnect` makes one for the future it
creates). -/
def WF (s : StreamState) : Prop :=
  handlerOK s.futures.length s.onmessage = true ∧
  ∀ sk ∈ s.sockets,
    handlerOK s.futures.length sk.onopen = true ∧
    handlerOK s.futures.length sk.onclose = true ∧
    handlerOK s.futures.length sk.onerror = true ∧
    handlerOK s.futures.length sk.onmessage = true

instance : DecidablePred WF := fun s => by
  unfold WF
  infer_instance

/-- A freshly constructed stream (no hook, no sockets yet). -/
def sampleFresh : StreamState :=
  (construct 0 7 none).1

/-- A live stream holding socket `0`, with one listener and a stored
external forwarder. -/
def sampleLive : StreamState :=
  { pollDisposed := false
    connector := 7
    onmessage := some (Handler.external 5)
    socket := some 0
    sockets := [{ onopen := some (Handler.external 1)
                  onclose := some (Handler.rejectClose 0)
                  onerror := none
                  onmessage := some (Handler.external 5)
                  closed := false }]
    listeners := [3]
    streamStopped := false
    futures := [FutureState.pending] }

/-- A disposed stream (the state `sampleLive` reaches after
`dispose`). -/
def sampleDisposed : StreamState :=
  (dispose sampleLive).1

/-- The socket object after `dispose` has torn it down: all four
callback slots nulled and `close()` called. -/
def clearedSocket : Socket :=
  { onopen := none, onclose := none, onerror := none, onmessage := none
    closed := true }

/-- Invariant carried while running arbitrary actions after a
`reconnect` call created socket `sid` whose pending future is `fid`:
the future exists; it is pending or rejected with the close error; the
stored forwarder is not the future's reject closure; and the future's
reject closure occurs, if anywhere, only in socket `sid`'s `onclose`
slot. -/
def rcInv (sid fid : Nat) (t : StreamState) : Prop :=
  fid < t.futures.length ∧
  (t.futures[fid]? = some FutureState.pending ∨
   t.futures[fid]? =
     some (FutureState.rejected "socket stream has closed")) ∧
  t.onmessage ≠ some (Handler.rejectClose fid) ∧
  ∀ j sk, t.sockets[j]? = some sk → ∀ k,
    sk.getSlot k = some (Handler.rejectClose fid) →
    j = sid ∧ k = SlotKind.onclose

/-- C1: on a disposed stream, `send` returns normally with no effects —
nothing is invoked on any transport and the state is unchanged. -/
theorem send_after_dispose_noop (s : StreamState) (d : Payload)
    (h : isDisposed s = true) :
    send s d = (s, [], Except.ok ()) := by
  simp [send, h]

theorem send_after_dispose_noop_witness :
    isDisposed sampleDisposed = true ∧
    send sampleDisposed "z" = (sampleDisposed, [], Except.ok ()) :=
  ⟨by decide, send_after_dispose_noop sampleDisposed "z" (by decide)⟩

theorem reconnect_disposed_eq (s : StreamState)
    (conn : ConnectorOutcome) (h : isDisposed s = true) :
    reconnect s conn = (s, [], ReconnectResult.resolvedNoop) := by
  simp [reconnect, h]

/-- C4: on a disposed stream, `reconnect` returns an immediately
successfully-resolved no-op: the connector is not called (no effects at
all) and the state is unchanged. -/
theorem reconnect_after_dispose_noop (s : StreamState)
    (conn : ConnectorOutcome) (h : isDisposed s = true) :
    reconnect s conn = (s, [], ReconnectResult.resolvedNoop) :=
  reconnect_disposed_eq s conn h

theorem reconnect_after_dispose_noop_witness :
    isDisposed sampleDisposed = true ∧
    reconnect sampleDisposed (ConnectorOutcome.ok ⟨none, none, none, none⟩) =
      (sampleDisposed, [], ReconnectResult.resolvedNoop) :=
  ⟨by decide,
   reconnect_after_dispose_noop sampleDisposed
     (ConnectorOutcome.ok ⟨none, none, none, none⟩) (by decide)⟩

/-- C6: on a non-disposed stream whose connector throws synchronously,
`reconnect` does not let the exception escape synchronously: it returns
a future rejected with exactly the thrown error, after having called the
connector, with no other effect and no state change. -/
theorem reconnect_factory_throw_rejects (s : StreamState) (e : Nat)
    (h : isDisposed s = false) :
    reconnect s (ConnectorOutcome.throw e) =
      (s, [Effect.connectorCall], ReconnectResult.rejectedSync e) := by
  simp [reconnect, h]

theorem reconnect_factory_throw_rejects_witness :
    isDisposed sampleLive = false ∧
    reconnect sampleLive (ConnectorOutcome.throw 42) =
      (sampleLive, [Effect.connectorCall], ReconnectResult.rejectedSync 42) :=
  ⟨by decide, reconnect_factory_throw_rejects sampleLive 42 (by decide)⟩

/-- C7: on a non-disposed stream with no current socket, `send` fails to
the caller (the `this.socket!` dereference of `null` throws), with no
effect, no state change, and nothing buffered or queued. -/
theorem send_without_socket_fails (s : StreamState) (d : Payload)
    (h : isDisposed s = false) (hs : s.socket = none) :
    send s d = (s, [], Except.error SendErr.nullSocket) := by
  simp [send, h, hs]

theorem send_without_socket_fails_witness :
    isDisposed sampleFresh = false ∧ sampleFresh.socket = none ∧
    send sampleFresh "z" = (sampleFresh, [], Except.error SendErr.nullSocket) :=
  ⟨by decide, by decide,
   send_without_socket_fails sampleFresh "z" (by decide) (by decide)⟩

/-- C9: the constructor stores the connector; when the `onmessage`
option is supplied it is invoked exactly once, with the stream itself as
its argument, and the hook it returns is stored as the forwarder; when
it is absent the stored forwarder is `null` and the option is never
invoked. -/
theorem construct_stores_connector_and_hook (self conn : Nat)
    (f : Nat → Option Nat) :
    (construct self conn (some f)).1.connector = conn ∧
    (construct self conn (some f)).2 = [Effect.onMessageFactoryCall self] ∧
    (construct self conn (some f)).1.onmessage =
      (f self).map Handler.external ∧
    (construct self conn none).1.connector = conn ∧
    (construct self conn none).2 = [] ∧
    (construct self conn none).1.onmessage = none := by
  simp [construct]

theorem send_state_id (t : StreamState) (d : Payload) : (send t d).1 = t := by
  unfold send
  split
  · rfl
  · split <;> rfl

theorem dispose_fields (t : StreamState) :
    (dispose t).1.pollDisposed = true ∧ (dispose t).1.socket = none ∧
    (dispose t).1.listeners = [] ∧ (dispose t).1.streamStopped = true ∧
    (dispose t).1.futures = t.futures ∧
    (dispose t).1.onmessage = t.onmessage := by
  obtain ⟨pd, cn, om, so, sks, ls, st, fu⟩ := t
  cases pd <;> cases so <;> cases st <;> rcases ls with _ | ⟨l, ls⟩ <;>
    simp [dispose, pollDispose, clearData, streamStop]

theorem dispose_noop (t : StreamState)
    (h1 : t.pollDisposed = true) (h2 : t.socket = none)
    (h3 : t.listeners = []) (h4 : t.streamStopped = true) :
    dispose t = (t, []) := by
  obtain ⟨pd, cn, om, so, sks, ls, st, fu⟩ := t
  simp_all [dispose, pollDispose, clearData, streamStop]

/-- C2: `dispose` is idempotent — a second call on an already-disposed
stream returns the state unchanged and produces no observable effect. -/
theorem dispose_idempotent (s : StreamState) :
    dispose (dispose s).1 = ((dispose s).1, []) := by
  obtain ⟨h1, h2, h3, h4, -, -⟩ := dispose_fields s
  exact dispose_noop _ h1 h2 h3 h4

theorem setSlot_of_get (socks : List Socket) (i : Nat) (k : SlotKind)
    (h : Option Handler) (sk : Socket) (hget : socks[i]? = some sk) :
    setSlot socks i k h = socks.set i (sk.setSlot k h) := by
  simp [setSlot, hget]

theorem closeSock_of_get (socks : List Socket) (i : Nat) (sk : Socket)
    (hget : socks[i]? = some sk) :
    closeSock socks i = socks.set i { sk with closed := true } := by
  simp [closeSock, hget]

theorem lt_of_getElem?_some {α : Type} {socks : List α} {i : Nat} {sk : α}
    (hget : socks[i]? = some sk) : i < socks.length := by
  by_contra hlt
  rw [List.getElem?_eq_none_iff.mpr (Nat.le_of_not_lt hlt)] at hget
  exact Option.noConfusion hget

/-- Tearing a socket down (dispose's socket branch) nulls all four
slots and marks it closed. -/
theorem dispose_teardown (socks : List Socket) (i : Nat) (sk : Socket)
    (hget : socks[i]? = some sk) :
    closeSock
      (setSlot (setSlot (setSlot (setSlot socks
        i SlotKind.onclose none)
        i SlotKind.onerror none)
        i SlotKind.onmessage none)
        i SlotKind.onopen none) i = socks.set i clearedSocket := by
  have hi : i < socks.length := lt_of_getElem?_some hget
  rw [setSlot_of_get _ _ _ _ _ hget]
  rw [setSlot_of_get _ _ _ _ _
    (List.getElem?_set_eq (by simpa using hi))]
  rw [List.set_set]
  rw [setSlot_of_get _ _ _ _ _
    (List.getElem?_set_eq (by simpa using hi))]
  rw [List.set_set]
  rw [setSlot_of_get _ _ _ _ _
    (List.getElem?_set_eq (by simpa using hi))]
  rw [List.set_set]
  rw [closeSock_of_get _ _ _
    (List.getElem?_set_eq (by simpa using hi))]
  rw [List.set_set]
  simp [Socket.setSlot, clearedSocket]

/-- C5: a first `dispose` on a live stream with a current socket
performs, in order: dispose the `Poll`; null the socket's four callback
slots (`onclose`, `onerror`, `onmessage`, `onopen`) and call its
`close()`; clear the stored socket reference; clear the listener state;
stop the async-iterable view.  The resulting state records exactly
that. -/
theorem dispose_first_call (s : StreamState) (i : Nat) (sk : Socket)
    (hpd : s.pollDisposed = false) (hso : s.socket = some i)
    (hget : s.sockets[i]? = some sk)
    (hst : s.streamStopped = false) (hls : s.listeners ≠ []) :
    dispose s =
      ({ s with
          pollDisposed := true
          socket := none
          sockets := s.sockets.set i clearedSocket
          listeners := []
          streamStopped := true },
       [Effect.pollDisposeOp,
        Effect.slotWrite i SlotKind.onclose none,
        Effect.slotWrite i SlotKind.onerror none,
        Effect.slotWrite i SlotKind.onmessage none,
        Effect.slotWrite i SlotKind.onopen none,
        Effect.socketCloseOp i,
        Effect.clearDataOp,
        Effect.streamStopOp]) := by
  have hteardown := dispose_teardown s.sockets i sk hget
  obtain ⟨pd, cn, om, so, sks, ls, st, fu⟩ := s
  simp only at hpd hso hst hls hteardown
  subst hpd hso hst
  simp [dispose, pollDispose, clearData, streamStop, hls, hteardown]

theorem dispose_first_call_witness :
    sampleLive.pollDisposed = false ∧ sampleLive.socket = some 0 ∧
    sampleLive.sockets[0]? = some
      { onopen := some (Handler.external 1)
        onclose := some (Handler.rejectClose 0)
        onerror := none
        onmessage := some (Handler.external 5)
        closed := false } ∧
    sampleLive.streamStopped = false ∧ sampleLive.listeners ≠ [] ∧
    dispose sampleLive =
      ({ sampleLive with
          pollDisposed := true
          socket := none
          sockets := sampleLive.sockets.set 0 clearedSocket
          listeners := []
          streamStopped := true },
       [Effect.pollDisposeOp,
        Effect.slotWrite 0 SlotKind.onclose none,
        Effect.slotWrite 0 SlotKind.onerror none,
        Effect.slotWrite 0 SlotKind.onmessage none,
        Effect.slotWrite 0 SlotKind.onopen none,
        Effect.socketCloseOp 0,
        Effect.clearDataOp,
        Effect.streamStopOp]) :=
  ⟨by decide, by decide, by decide, by decide, by decide,
   dispose_first_call sampleLive 0
     { onopen := some (Handler.external 1)
       onclose := some (Handler.rejectClose 0)
       onerror := none
       onmessage := some (Handler.external 5)
       closed := false }
     (by decide) (by decide) (by decide) (by decide) (by decide)⟩

theorem setSlot_concat (xs : List Socket) (sk : Socket) (k : SlotKind)
    (h : Option Handler) :
    setSlot (xs ++ [sk]) xs.length k h = xs ++ [sk.setSlot k h] := by
  rw [setSlot_of_get _ _ _ _ _ (List.getElem?_concat_length xs sk)]
  rw [List.set_append_right _ _ (Nat.le_refl _)]
  simp

/-- C10: on a non-disposed stream, `reconnect` leaves the new socket
with its `onclose` and `onmessage` slots written (the reject closure
and the stored forwarder) and its `onopen` and `onerror` slots exactly
as the factory produced them; every previously created socket is
untouched, and the effect trace shows the connector call and those two
slot writes only — in particular no `close()` on the replaced
socket. -/
theorem reconnect_writes_only_new_socket (s : StreamState)
    (f : FactorySocket) (hd : isDisposed s = false) :
    (reconnect s (ConnectorOutcome.ok f)).1.sockets[s.sockets.length]? =
      some { onopen := f.onopen.map Handler.external
             onclose := some (Handler.rejectClose s.futures.length)
             onerror := f.onerror.map Handler.external
             onmessage := s.onmessage
             closed := false } ∧
    (∀ j, j < s.sockets.length →
      (reconnect s (ConnectorOutcome.ok f)).1.sockets[j]? =
        s.sockets[j]?) ∧
    (reconnect s (ConnectorOutcome.ok f)).2.1 =
      [Effect.connectorCall,
       Effect.slotWrite s.sockets.length SlotKind.onclose
         (some (Handler.rejectClose s.futures.length)),
       Effect.slotWrite s.sockets.length SlotKind.onmessage
         s.onmessage] := by
  have hchain :
      (reconnect s (ConnectorOutcome.ok f)).1.sockets =
        s.sockets ++ [((f.toSocket).setSlot SlotKind.onclose
          (some (Handler.rejectClose s.futures.length))).setSlot
            SlotKind.onmessage s.onmessage] := by
    simp only [reconnect, hd, Bool.false_eq_true, if_false]
    rw [setSlot_concat]
    rw [setSlot_concat]
  refine ⟨?_, ?_, ?_⟩
  · rw [hchain, List.getElem?_concat_length]
    simp [FactorySocket.toSocket, Socket.setSlot]
  · intro j hj
    rw [hchain, List.getElem?_append_left hj]
  · simp [reconnect, hd]

theorem reconnect_writes_only_new_socket_witness :
    isDisposed sampleLive = false ∧
    ((reconnect sampleLive
        (ConnectorOutcome.ok ⟨some 9, some 8, none, none⟩)).1.sockets[
          sampleLive.sockets.length]? =
      some { onopen := some (Handler.external 9)
             onclose := some (Handler.rejectClose 1)
             onerror := none
             onmessage := some (Handler.external 5)
             closed := false } ∧
    (∀ j, j < sampleLive.sockets.length →
      (reconnect sampleLive
        (ConnectorOutcome.ok ⟨some 9, some 8, none, none⟩)).1.sockets[j]? =
        sampleLive.sockets[j]?) ∧
    (reconnect sampleLive
        (ConnectorOutcome.ok ⟨some 9, some 8, none, none⟩)).2.1 =
      [Effect.connectorCall,
       Effect.slotWrite 1 SlotKind.onclose (some (Handler.rejectClose 1)),
       Effect.slotWrite 1 SlotKind.onmessage
         (some (Handler.external 5))]) :=
  ⟨by decide,
   reconnect_writes_only_new_socket sampleLive
     ⟨some 9, some 8, none, none⟩ (by decide)⟩

theorem fireEvent_frame (t : StreamState) (sid : Nat) (ev : EventKind) :
    (fireEvent t sid ev).pollDisposed = t.pollDisposed ∧
    (fireEvent t sid ev).socket = t.socket ∧
    (fireEvent t sid ev).sockets = t.sockets ∧
    (fireEvent t sid ev).onmessage = t.onmessage ∧
    (fireEvent t sid ev).listeners = t.listeners := by
  unfold fireEvent
  split
  · exact ⟨rfl, rfl, rfl, rfl, rfl⟩
  · unfold runHandler
    split
    · exact ⟨rfl, rfl, rfl, rfl, rfl⟩
    · exact ⟨rfl, rfl, rfl, rfl, rfl⟩

theorem step_keeps_disposed (t : StreamState) (a : SAction)
    (h1 : t.pollDisposed = true) (h2 : t.socket = none) :
    (step t a).pollDisposed = true ∧ (step t a).socket = none := by
  cases a with
  | doSend d => rw [step, send_state_id]; exact ⟨h1, h2⟩
  | doDispose =>
    exact ⟨(dispose_fields t).1, (dispose_fields t).2.1⟩
  | doReconnect conn =>
    have : isDisposed t = true := h1
    rw [step, (congrArg Prod.fst (reconnect_disposed_eq t conn this) :
      (reconnect t conn).1 = t)]
    exact ⟨h1, h2⟩
  | doFire sid ev =>
    obtain ⟨hp, hs, -, -, -⟩ := fireEvent_frame t sid ev
    rw [step, hp, hs]
    exact ⟨h1, h2⟩
  | doConnect l => exact ⟨h1, h2⟩

/-- C8: disposal is terminal — after `dispose`, `isDisposed` is true,
no socket reference exists and the poll is disposed (hence stopped), and
no sequence of subsequent operations (sends, disposes, reconnects,
socket events, listener connects) can revert any of this. -/
theorem dispose_terminal (s : StreamState) (as : List SAction) :
    isDisposed (run (dispose s).1 as) = true ∧
    (run (dispose s).1 as).socket = none ∧
    (run (dispose s).1 as).pollDisposed = true := by
  suffices h : ∀ t : StreamState, t.pollDisposed = true → t.socket = none →
      (run t as).pollDisposed = true ∧ (run t as).socket = none by
    obtain ⟨hp, hs⟩ := h (dispose s).1 (dispose_fields s).1
      (dispose_fields s).2.1
    exact ⟨hp, hs, hp⟩
  induction as with
  | nil => intro t ht1 ht2; exact ⟨ht1, ht2⟩
  | cons a rest ih =>
    intro t ht1 ht2
    obtain ⟨ht1', ht2'⟩ := step_keeps_disposed t a ht1 ht2
    exact ih (step t a) ht1' ht2'

/-- The full state produced by `reconnect` on a non-disposed stream
whose connector returns a socket. -/
theorem reconnect_ok_state (s : StreamState) (f : FactorySocket)
    (hd : isDisposed s = false) :
    (reconnect s (ConnectorOutcome.ok f)).1 =
      { s with
        sockets := s.sockets ++
          [{ onopen := f.onopen.map Handler.external
             onclose := some (Handler.rejectClose s.futures.length)
             onerror := f.onerror.map Handler.external
             onmessage := s.onmessage
             closed := false }]
        socket := some s.sockets.length
        futures := s.futures ++ [FutureState.pending] } ∧
    (reconnect s (ConnectorOutcome.ok f)).2.2 =
      ReconnectResult.pending s.futures.length := by
  constructor
  · simp only [reconnect, hd, Bool.false_eq_true, if_false]
    rw [setSlot_concat, setSlot_concat]
    simp [FactorySocket.toSocket, Socket.setSlot]
  · simp [reconnect, hd]

theorem handlerOK_ne {b g : Nat} {h : Option Handler}
    (hok : handlerOK b h = true) (hg : b ≤ g) :
    h ≠ some (Handler.rejectClose g) := by
  intro he
  subst he
  simp [handlerOK] at hok
  omega

theorem settleReject_length (fs : List FutureState) (fid : Nat)
    (msg : String) : (settleReject fs fid msg).length = fs.length := by
  unfold settleReject
  split <;> simp

theorem settleReject_get_ne (fs : List FutureState) (g fid : Nat)
    (msg : String) (h : g ≠ fid) :
    (settleReject fs g msg)[fid]? = fs[fid]? := by
  unfold settleReject
  split
  · exact List.getElem?_set_ne h
  · rfl

theorem settleReject_get_self (fs : List FutureState) (fid : Nat)
    (msg : String)
    (hp : fs[fid]? = some FutureState.pending ∨
          fs[fid]? = some (FutureState.rejected msg)) :
    (settleReject fs fid msg)[fid]? = some FutureState.pending ∨
    (settleReject fs fid msg)[fid]? = some (FutureState.rejected msg) := by
  unfold settleReject
  split
  · next heq =>
    right
    rw [List.getElem?_set_eq (by simpa using lt_of_getElem?_some heq)]
  · exact hp

theorem clearedSocket_getSlot (k : SlotKind) :
    clearedSocket.getSlot k = none := by
  cases k <;> rfl

theorem setSlot_of_none (socks : List Socket) (i : Nat) (k : SlotKind)
    (h : Option Handler) (hget : socks[i]? = none) :
    setSlot socks i k h = socks := by
  simp [setSlot, hget]

theorem closeSock_of_none (socks : List Socket) (i : Nat)
    (hget : socks[i]? = none) : closeSock socks i = socks := by
  simp [closeSock, hget]

theorem dispose_sockets (t : StreamState) :
    (dispose t).1.sockets =
      match t.socket with
      | none => t.sockets
      | some i =>
        closeSock (setSlot (setSlot (setSlot (setSlot t.sockets
          i SlotKind.onclose none) i SlotKind.onerror none)
          i SlotKind.onmessage none) i SlotKind.onopen none) i := by
  obtain ⟨pd, cn, om, so, sks, ls, st, fu⟩ := t
  cases pd <;> rcases so with _ | i <;> rcases ls with _ | ⟨l, ls⟩ <;>
    cases st <;> simp [dispose, pollDispose, clearData, streamStop]

/-- Disposal never adds a handler to a socket slot: any handler found
in a slot afterwards was already there. -/
theorem dispose_slot_shrink (t : StreamState) (j : Nat) (sk' : Socket)
    (k : SlotKind) (h : Handler)
    (hget : (dispose t).1.sockets[j]? = some sk')
    (hh : sk'.getSlot k = some h) :
    ∃ sk, t.sockets[j]? = some sk ∧ sk.getSlot k = some h := by
  rw [dispose_sockets t] at hget
  rcases hso : t.socket with _ | i
  · simp only [hso] at hget
    exact ⟨sk', hget, hh⟩
  · simp only [hso] at hget
    rcases hgi : t.sockets[i]? with _ | sk0
    · have hnone : ∀ (ks : SlotKind) (hs : Option Handler),
          setSlot t.sockets i ks hs = t.sockets :=
        fun ks hs => setSlot_of_none _ _ _ _ hgi
      rw [hnone, hnone, hnone, hnone, closeSock_of_none _ _ hgi] at hget
      exact ⟨sk', hget, hh⟩
    · rw [dispose_teardown t.sockets i sk0 hgi] at hget
      by_cases hij : j = i
      · subst hij
        rw [List.getElem?_set_eq
          (by simpa using lt_of_getElem?_some hgi)] at hget
        cases hget
        rw [clearedSocket_getSlot] at hh
        exact Option.noConfusion hh
      · rw [List.getElem?_set_ne (fun he => hij he.symm)] at hget
        exact ⟨sk', hget, hh⟩

/-- Preservation of `rcInv` by every action. -/
theorem rcInv_step (sid fid : Nat) (t : StreamState) (a : SAction)
    (h : rcInv sid fid t) : rcInv sid fid (step t a) := by
  obtain ⟨h1, h2, h3, h4⟩ := h
  cases a with
  | doSend d =>
    rw [step, send_state_id]
    exact ⟨h1, h2, h3, h4⟩
  | doConnect l =>
    exact ⟨h1, h2, h3, h4⟩
  | doDispose =>
    obtain ⟨-, -, -, -, hfu, hom⟩ := dispose_fields t
    refine ⟨?_, ?_, ?_, ?_⟩
    · rw [show (step t SAction.doDispose).futures = t.futures from hfu]
      exact h1
    · rw [show (step t SAction.doDispose).futures = t.futures from hfu]
      exact h2
    · rw [show (step t SAction.doDispose).onmessage = t.onmessage from hom]
      exact h3
    · intro j sk' hget k hk
      obtain ⟨sk, hg, hs⟩ := dispose_slot_shrink t j sk' k _ hget hk
      exact h4 j sk hg k hs
  | doReconnect conn =>
    show rcInv sid fid (reconnect t conn).1
    rcases hd : isDisposed t with _ | _
    · rcases conn with f | e
      · obtain ⟨hst, -⟩ := reconnect_ok_state t f hd
        rw [hst]
        refine ⟨?_, ?_, h3, ?_⟩
        · simp only [List.length_append, List.length_cons,
            List.length_nil]
          omega
        · rw [show (t.futures ++ [FutureState.pending])[fid]? =
              t.futures[fid]? from List.getElem?_append_left h1]
          exact h2
        · intro j sk hget k hk
          rcases Nat.lt_trichotomy j t.sockets.length with hj | hj | hj
          · rw [List.getElem?_append_left hj] at hget
            exact h4 j sk hget k hk
          · subst hj
            rw [List.getElem?_concat_length] at hget
            cases hget
            cases k <;> simp only [Socket.getSlot] at hk
            · rcases hop : f.onopen with _ | n <;>
                simp [hop] at hk
            · exfalso
              have : t.futures.length = fid := by
                have := hk
                simp at this
                omega
              omega
            · rcases hop : f.onerror with _ | n <;>
                simp [hop] at hk
            · exact absurd hk h3
          · rw [List.getElem?_eq_none_iff.mpr
              (by simp; omega)] at hget
            exact Option.noConfusion hget
      · rw [show (reconnect t (ConnectorOutcome.throw e)).1 = t by
          simp [reconnect, hd]]
        exact ⟨h1, h2, h3, h4⟩
    · rw [show (reconnect t conn).1 = t from
        congrArg Prod.fst (reconnect_disposed_eq t conn hd)]
      exact ⟨h1, h2, h3, h4⟩
  | doFire sid' ev =>
    show rcInv sid fid (fireEvent t sid' ev)
    unfold fireEvent
    split
    · exact ⟨h1, h2, h3, h4⟩
    · next sk heq =>
      unfold runHandler
      split
      · next g hg =>
        refine ⟨?_, ?_, h3, h4⟩
        · simpa [settleReject_length] using h1
        · by_cases hgf : g = fid
          · subst hgf
            exact settleReject_get_self t.futures g _ h2
          · rw [show (settleReject t.futures g
                "socket stream has closed")[fid]? = t.futures[fid]? from
              settleReject_get_ne t.futures g fid _ hgf]
            exact h2
      · exact ⟨h1, h2, h3, h4⟩

/-- Any action other than firing a close event on socket `sid` leaves
future `fid` untouched. -/
theorem step_pending (sid fid : Nat) (t : StreamState) (a : SAction)
    (hinv : rcInv sid fid t)
    (hne : a ≠ SAction.doFire sid EventKind.closeEv) :
    (step t a).futures[fid]? = t.futures[fid]? := by
  obtain ⟨h1, h2, h3, h4⟩ := hinv
  cases a with
  | doSend d => rw [step, send_state_id]
  | doConnect l => rfl
  | doDispose =>
    exact congrArg (fun fs => fs[fid]?) (dispose_fields t).2.2.2.2.1
  | doReconnect conn =>
    show (reconnect t conn).1.futures[fid]? = _
    rcases hd : isDisposed t with _ | _
    · rcases conn with f | e
      · rw [(reconnect_ok_state t f hd).1]
        exact List.getElem?_append_left h1
      · rw [show (reconnect t (ConnectorOutcome.throw e)).1 = t by
          simp [reconnect, hd]]
    · rw [show (reconnect t conn).1 = t from
        congrArg Prod.fst (reconnect_disposed_eq t conn hd)]
  | doFire sid' ev =>
    show (fireEvent t sid' ev).futures[fid]? = _
    unfold fireEvent
    split
    · rfl
    · next sk heq =>
      unfold runHandler
      split
      · next g hg =>
        have hgf : g ≠ fid := by
          intro he
          subst he
          obtain ⟨hj, hk⟩ := h4 sid' sk heq (eventSlot ev) hg
          subst hj
          cases ev
          case closeEv => exact hne rfl
          all_goals simp [eventSlot] at hk
        exact settleReject_get_ne t.futures g fid _ hgf
      · rfl

theorem run_rcInv (sid fid : Nat) (t : StreamState) (as : List SAction)
    (h : rcInv sid fid t) : rcInv sid fid (run t as) := by
  induction as generalizing t with
  | nil => exact h
  | cons a rest ih => exact ih (step t a) (rcInv_step sid fid t a h)

theorem run_pending (sid fid : Nat) (t : StreamState) (as : List SAction)
    (h : rcInv sid fid t)
    (hne : SAction.doFire sid EventKind.closeEv ∉ as)
    (hp : t.futures[fid]? = some FutureState.pending) :
    (run t as).futures[fid]? = some FutureState.pending := by
  induction as generalizing t with
  | nil => exact hp
  | cons a rest ih =>
    have hne1 : a ≠ SAction.doFire sid EventKind.closeEv := by
      intro he
      exact hne (he ▸ List.mem_cons_self a rest)
    have hrest : SAction.doFire sid EventKind.closeEv ∉ rest :=
      fun hm => hne (List.mem_cons_of_mem a hm)
    exact ih (step t a) (rcInv_step sid fid t a h) hrest
      ((step_pending sid fid t a h hne1).trans hp)

/-- After `reconnect` succeeds on a well-formed non-disposed state, the
invariant holds and the new future is pending. -/
theorem reconnect_rcInv (s : StreamState) (f : FactorySocket)
    (hd : isDisposed s = false) (hwf : WF s) :
    rcInv s.sockets.length s.futures.length
      (reconnect s (ConnectorOutcome.ok f)).1 ∧
    (reconnect s (ConnectorOutcome.ok f)).1.futures[s.futures.length]? =
      some FutureState.pending := by
  obtain ⟨hwf1, hwf2⟩ := hwf
  obtain ⟨hst, -⟩ := reconnect_ok_state s f hd
  rw [hst]
  have hpend :
      (s.futures ++ [FutureState.pending])[s.futures.length]? =
        some FutureState.pending :=
    List.getElem?_concat_length s.futures FutureState.pending
  refine ⟨⟨?_, ?_, ?_, ?_⟩, hpend⟩
  · simp
  · left
    exact hpend
  · exact handlerOK_ne hwf1 (Nat.le_refl _)
  · intro j sk hget k hk
    rcases Nat.lt_trichotomy j s.sockets.length with hj | hj | hj
    · exfalso
      rw [List.getElem?_append_left hj] at hget
      obtain ⟨hok1, hok2, hok3, hok4⟩ := hwf2 sk (List.getElem?_mem hget)
      cases k <;> simp only [Socket.getSlot] at hk
      · exact handlerOK_ne hok1 (Nat.le_refl _) hk
      · exact handlerOK_ne hok2 (Nat.le_refl _) hk
      · exact handlerOK_ne hok3 (Nat.le_refl _) hk
      · exact handlerOK_ne hok4 (Nat.le_refl _) hk
    · subst hj
      rw [List.getElem?_concat_length] at hget
      cases hget
      cases k <;> simp only [Socket.getSlot] at hk
      · rcases hop : f.onopen with _ | n <;> simp [hop] at hk
      · exact ⟨rfl, rfl⟩
      · rcases hop : f.onerror with _ | n <;> simp [hop] at hk
      · exact absurd hk (handlerOK_ne hwf1 (Nat.le_refl _))
    · exfalso
      rw [List.getElem?_eq_none_iff.mpr (by simp; omega)] at hget
      exact Option.noConfusion hget

/-- C3: on a non-disposed well-formed stream whose connector returns a
socket, `reconnect` returns a pending future; under any subsequent
sequence of operations and socket events that future is never resolved
successfully — it is either still pending or rejected with the
`socket stream has closed` error — and if no close event ever fires on
the newly created socket it is still pending, so the future can fail
only through the close handler installed on that socket. -/
theorem reconnect_future_only_fails_via_close (s : StreamState)
    (f : FactorySocket) (as : List SAction)
    (hd : isDisposed s = false) (hwf : WF s) :
    (reconnect s (ConnectorOutcome.ok f)).2.2 =
      ReconnectResult.pending s.futures.length ∧
    ((run (reconnect s (ConnectorOutcome.ok f)).1 as).futures[
        s.futures.length]? = some FutureState.pending ∨
     (run (reconnect s (ConnectorOutcome.ok f)).1 as).futures[
        s.futures.length]? =
       some (FutureState.rejected "socket stream has closed")) ∧
    (SAction.doFire s.sockets.length EventKind.closeEv ∉ as →
      (run (reconnect s (ConnectorOutcome.ok f)).1 as).futures[
        s.futures.length]? = some FutureState.pending) := by
  obtain ⟨hinv, hpend⟩ := reconnect_rcInv s f hd hwf
  refine ⟨(reconnect_ok_state s f hd).2, ?_, ?_⟩
  · exact (run_rcInv _ _ _ as hinv).2.1
  · intro hnotin
    exact run_pending _ _ _ as hinv hnotin hpend

theorem reconnect_future_only_fails_via_close_witness :
    isDisposed sampleLive = false ∧ WF sampleLive ∧
    ((reconnect sampleLive
        (ConnectorOutcome.ok ⟨some 9, none, none, none⟩)).2.2 =
      ReconnectResult.pending 1 ∧
    ((run (reconnect sampleLive
        (ConnectorOutcome.ok ⟨some 9, none, none, none⟩)).1
        [SAction.doFire 1 EventKind.closeEv,
         SAction.doSend "a"]).futures[1]? = some FutureState.pending ∨
     (run (reconnect sampleLive
        (ConnectorOutcome.ok ⟨some 9, none, none, none⟩)).1
        [SAction.doFire 1 EventKind.closeEv,
         SAction.doSend "a"]).futures[1]? =
       some (FutureState.rejected "socket stream has closed")) ∧
    (SAction.doFire 1 EventKind.closeEv ∉
        [SAction.doFire 1 EventKind.closeEv, SAction.doSend "a"] →
      (run (reconnect sampleLive
        (ConnectorOutcome.ok ⟨some 9, none, none, none⟩)).1
        [SAction.doFire 1 EventKind.closeEv,
         SAction.doSend "a"]).futures[1]? = some FutureState.pending)) :=
  ⟨by decide, by decide,
   reconnect_future_only_fails_via_close sampleLive
     ⟨some 9, none, none, none⟩
     [SAction.doFire 1 EventKind.closeEv, SAction.doSend "a"]
     (by decide) (by decide)⟩
